import Mathlib

/-!
Verification of the car-dano-nft minting service (src/server.ts, src/minting.ts).

The development shallowly embeds the mint pipeline of the two `/api/metadata`
POST handler variants, the `/api/metadata/:txHash` and `/api/nft/:assetId`
GET handlers, and the `minting.ts` demo flow.  Node's `createHash('sha256')`
is embedded as a full executable SHA-256 over byte lists, and Mesh's
`stringToHex` as UTF-8 hex encoding, so every derived identity value is
computable inside Lean.
-/

namespace SHA256

/-- Truncate to a 32-bit word, as every JS/crypto 32-bit operation does. -/
def w32 (n : Nat) : Nat := n % 4294967296

/-- Right rotation of a 32-bit word. -/
def rotr (n x : Nat) : Nat := w32 ((x >>> n) ||| (x <<< (32 - n)))

def ch (x y z : Nat) : Nat := (x &&& y) ^^^ ((x ^^^ 4294967295) &&& z)

def maj (x y z : Nat) : Nat := (x &&& y) ^^^ (x &&& z) ^^^ (y &&& z)

def bigSigma0 (x : Nat) : Nat := rotr 2 x ^^^ rotr 13 x ^^^ rotr 22 x

def bigSigma1 (x : Nat) : Nat := rotr 6 x ^^^ rotr 11 x ^^^ rotr 25 x

def smallSigma0 (x : Nat) : Nat := rotr 7 x ^^^ rotr 18 x ^^^ (x >>> 3)

def smallSigma1 (x : Nat) : Nat := rotr 17 x ^^^ rotr 19 x ^^^ (x >>> 10)

/-- The 64 SHA-256 round constants. -/
def K : List Nat :=
  [1116352408, 1899447441, 3049323471, 3921009573, 961987163,
   1508970993, 2453635748, 2870763221, 3624381080, 310598401,
   607225278, 1426881987, 1925078388, 2162078206, 2614888103,
   3248222580, 3835390401, 4022224774, 264347078, 604807628,
   770255983, 1249150122, 1555081692, 1996064986, 2554220882,
   2821834349, 2952996808, 3210313671, 3336571891, 3584528711,
   113926993, 338241895, 666307205, 773529912, 1294757372,
   1396182291, 1695183700, 1986661051, 2177026350, 2456956037,
   2730485921, 2820302411, 3259730800, 3345764771, 3516065817,
   3600352804, 4094571909, 275423344, 430227734, 506948616,
   659060556, 883997877, 958139571, 1322822218, 1537002063,
   1747873779, 1955562222, 2024104815, 2227730452, 2361852424,
   2428436474, 2756734187, 3204031479, 3329325298]

/-- The initial hash state. -/
def H0 : List Nat :=
  [1779033703, 3144134277, 1013904242, 2773480762, 1359893119,
   2600822924, 528734635, 1541459225]

/-- `k` bytes of `n`, big-endian. -/
def beBytes (k n : Nat) : List Nat :=
  (List.range k).map (fun i => (n >>> ((k - 1 - i) * 8)) % 256)

/-- Merkle–Damgård padding: append 0x80, zero bytes up to 56 mod 64, then the
64-bit big-endian bit length. -/
def pad (msg : List Nat) : List Nat :=
  msg ++ [0x80] ++ List.replicate ((120 - (msg.length + 1) % 64) % 64) 0
      ++ beBytes 8 (msg.length * 8)

/-- Group bytes into big-endian 32-bit words. -/
def toWords : List Nat → List Nat
  | b0 :: b1 :: b2 :: b3 :: rest =>
      ((b0 <<< 24) ||| (b1 <<< 16) ||| (b2 <<< 8) ||| b3) :: toWords rest
  | _ => []

/-- Extend the 16 block words to the 64-entry message schedule. -/
def extend (w : Array Nat) : Array Nat :=
  (List.range 48).foldl (fun w _ =>
    let t := w.size
    w.push (w32 (smallSigma1 (w.getD (t - 2) 0) + w.getD (t - 7) 0 +
                 smallSigma0 (w.getD (t - 15) 0) + w.getD (t - 16) 0))) w

/-- One compression round on the state `[a,b,c,d,e,f,g,h]`. -/
def round (st : List Nat) (kt wt : Nat) : List Nat :=
  match st with
  | [a, b, c, d, e, f, g, h] =>
      let t1 := w32 (h + bigSigma1 e + ch e f g + kt + wt)
      let t2 := w32 (bigSigma0 a + maj a b c)
      [w32 (t1 + t2), a, b, c, w32 (d + t1), e, f, g]
  | st => st

/-- Compress one 16-word block into the running hash state. -/
def compressBlock (h : List Nat) (block : List Nat) : List Nat :=
  let w := extend block.toArray
  let st := (List.range 64).foldl (fun st t => round st (K.getD t 0) (w.getD t 0)) h
  List.zipWith (fun x y => w32 (x + y)) h st

/-- SHA-256 digest (32 bytes) of a byte-list message. -/
def sha256 (msg : List Nat) : List Nat :=
  let ws := toWords (pad msg)
  let nb := ws.length / 16
  let hFinal := (List.range nb).foldl
    (fun h i => compressBlock h ((ws.drop (16 * i)).take 16)) H0
  (hFinal.map (beBytes 4)).flatten

end SHA256

/-- Lowercase hex digit for a value below 16, as `Buffer.toString('hex')` and
`hash.digest('hex')` produce. -/
def hexDigitChar (n : Nat) : Char :=
  if n < 10 then Char.ofNat (48 + n) else Char.ofNat (87 + n)

/-- Two lowercase hex digits of one byte. -/
def byteToHex (b : Nat) : List Char := [hexDigitChar (b / 16), hexDigitChar (b % 16)]

/-- Lowercase hex string of a byte list. -/
def bytesToHex (bs : List Nat) : String := String.mk (bs.map byteToHex).flatten

/-- UTF-8 encoding of one code point. -/
def utf8Char (c : Char) : List Nat :=
  let n := c.toNat
  if n < 128 then [n]
  else if n < 2048 then [192 ||| (n >>> 6), 128 ||| (n &&& 63)]
  else if n < 65536 then
    [224 ||| (n >>> 12), 128 ||| ((n >>> 6) &&& 63), 128 ||| (n &&& 63)]
  else
    [240 ||| (n >>> 18), 128 ||| ((n >>> 12) &&& 63),
     128 ||| ((n >>> 6) &&& 63), 128 ||| (n &&& 63)]

/-- UTF-8 bytes of a string, the default encoding of `hash.update(string)`
and `Buffer.from(string)` in Node. -/
def utf8Bytes (s : String) : List Nat := (s.data.map utf8Char).flatten

/-- `createHash('sha256').update(s).digest('hex')`: lowercase hex SHA-256
digest of the UTF-8 bytes of `s`. -/
def sha256HexDigest (s : String) : String := bytesToHex (SHA256.sha256 (utf8Bytes s))

/-- `s.substring(0, n)` of JavaScript on an ASCII string: the first `n`
characters. -/
def strTake (s : String) (n : Nat) : String := String.mk (s.data.take n)

/-- Mesh's `stringToHex`: lowercase hexadecimal encoding of the UTF-8 bytes
of the string (`Buffer.from(str, 'utf8').toString('hex')`). -/
def stringToHex (s : String) : String := bytesToHex (utf8Bytes s)

set_option maxRecDepth 100000

/-- The request payload of `POST /api/metadata` once validated: six required
string fields (src/server.ts, both variants). -/
structure InspectionRecord where
  vehicleNumber : String
  inspectionDate : String
  inspectorId : String
  mileage : String
  status : String
  pdfurl : String
deriving DecidableEq

/-- Modelled from the spec: `ForgeScript.withOneSignature` of @meshsdk/core
(library code outside src/) builds a single-signature minting authorization
script bound to the given wallet address. -/
structure ForgeScript where
  signerAddress : String
deriving DecidableEq

def ForgeScript.withOneSignature (addr : String) : ForgeScript := ⟨addr⟩

/-- Modelled from the spec: `resolveScriptHash` of @meshsdk/core (library code
outside src/) hashes the minting authorization script to the 56-hex-char
policy identifier; the hash is modelled as a deterministic content hash of
the script. -/
def resolveScriptHash (s : ForgeScript) : String :=
  strTake (sha256HexDigest ("oneSignature:" ++ s.signerAddress)) 56

/-- The per-asset leaf of the 721 metadata map: the spread record fields and,
in the second handler variant, a display `name`. -/
structure NftFields where
  record : InspectionRecord
  name : Option String
deriving DecidableEq

/-- The value attached under label 721: `{ [policyId]: { [tokenName]: fields } }`. -/
structure NftMetadata where
  policyId : String
  tokenName : String
  fields : NftFields
deriving DecidableEq

/-- One call on the `MeshTxBuilder` chain. -/
inductive TxStep where
  | mint (quantity policyId tokenNameHex : String)
  | mintingScript (script : ForgeScript)
  | metadataValue (label : Nat) (value : NftMetadata)
  | changeAddress (addr : String)
  | selectUtxosFrom (utxos : List String)
deriving DecidableEq

/-- The identity-derivation input of the second handler variant:
`` `${metadata.vehicleNumber}-${metadata.inspectionDate}-${metadata.inspectorId}` ``. -/
def dataToHash (r : InspectionRecord) : String :=
  r.vehicleNumber ++ "-" ++ r.inspectionDate ++ "-" ++ r.inspectorId

/-- `hash.digest('hex').substring(0, 32)` of the second handler variant. -/
def mkTokenName (r : InspectionRecord) : String :=
  strTake (sha256HexDigest (dataToHash r)) 32

/-- Everything the second `/api/metadata` variant derives and hands to the
transaction builder. -/
structure MintTx where
  policyId : String
  tokenName : String
  tokenNameHex : String
  assetId : String
  envelope : NftMetadata
  steps : List TxStep
deriving DecidableEq

/-- The mint pipeline of the second `/api/metadata` handler variant
(src/server.ts lines 379-405): hash-derived token name, asset id, display
name, metadata envelope and builder chain. -/
def mintPipeline (walletAddress : String) (r : InspectionRecord) (utxos : List String) : MintTx :=
  let forgingScript := ForgeScript.withOneSignature walletAddress
  let policyId := resolveScriptHash forgingScript
  let tokenName := mkTokenName r
  let tokenNameHex := stringToHex tokenName
  let assetId := policyId ++ tokenNameHex
  let displayName := "CarInspection-" ++ r.vehicleNumber
  let nftMetadata : NftMetadata := ⟨policyId, tokenName, ⟨r, some displayName⟩⟩
  { policyId := policyId, tokenName := tokenName, tokenNameHex := tokenNameHex,
    assetId := assetId, envelope := nftMetadata,
    steps := [TxStep.mint "1" policyId tokenNameHex, TxStep.mintingScript forgingScript,
      TxStep.metadataValue 721 nftMetadata, TxStep.changeAddress walletAddress,
      TxStep.selectUtxosFrom utxos] }

/-- What the first `/api/metadata` variant and `minting.ts` derive: the token
name is the fixed string, there is no asset id and no display name. -/
structure MintTxV1 where
  policyId : String
  tokenName : String
  tokenNameHex : String
  envelope : NftMetadata
  steps : List TxStep
deriving DecidableEq

/-- The mint pipeline of the first `/api/metadata` handler variant
(src/server.ts lines 145-163) and of `main` in src/minting.ts: the token name
is the constant "PT. Inspeksi Mobil Jogja". -/
def mintPipelineV1 (walletAddress : String) (r : InspectionRecord) (utxos : List String) : MintTxV1 :=
  let forgingScript := ForgeScript.withOneSignature walletAddress
  let policyId := resolveScriptHash forgingScript
  let tokenName := "PT. Inspeksi Mobil Jogja"
  let tokenNameHex := stringToHex tokenName
  let nftMetadata : NftMetadata := ⟨policyId, tokenName, ⟨r, none⟩⟩
  { policyId := policyId, tokenName := tokenName, tokenNameHex := tokenNameHex,
    envelope := nftMetadata,
    steps := [TxStep.mint "1" policyId tokenNameHex, TxStep.mintingScript forgingScript,
      TxStep.metadataValue 721 nftMetadata, TxStep.changeAddress walletAddress,
      TxStep.selectUtxosFrom utxos] }

/-- The demo record of src/minting.ts. -/
def demoAssetMetadata : InspectionRecord :=
  { vehicleNumber := "AB1234CD", inspectionDate := "2025-03-19T10:30:00Z",
    inspectorId := "12345", mileage := "10000", status := "PASSED",
    pdfurl := "https://bitcoin.org/bitcoin.pdf" }

/-- A raw `POST /api/metadata` body: each field either absent or a string. -/
structure MintRequestBody where
  vehicleNumber : Option String
  inspectionDate : Option String
  inspectorId : Option String
  mileage : Option String
  status : Option String
  pdfurl : Option String
deriving DecidableEq

/-- JavaScript truthiness of a string-or-absent body field: `undefined` and
`""` are falsy, every other string is truthy. -/
def truthy : Option String → Bool
  | none => false
  | some s => s != ""

/-- The network calls a mint request can perform, in the order the handler
awaits them. -/
inductive NetCall where
  | getUtxos
  | getUsedAddresses
  | signTx
  | submitTx
deriving DecidableEq

/-- The observable outcome of one `POST /api/metadata` request. -/
structure MintOutcome where
  httpStatus : Nat
  error : Option String
  calls : List NetCall
  minted : Option MintTx
deriving DecidableEq

/-- The second `/api/metadata` handler (src/server.ts lines 370-416):
truthiness validation of the six fields first, with an empty call trace on
rejection; otherwise the wallet calls and the mint pipeline. -/
def postMetadataHandler (body : MintRequestBody) (walletAddress : String)
    (utxos : List String) : MintOutcome :=
  if !(truthy body.vehicleNumber) || !(truthy body.inspectionDate) || !(truthy body.inspectorId)
      || !(truthy body.mileage) || !(truthy body.status) || !(truthy body.pdfurl) then
    { httpStatus := 400, error := some "Missing required fields", calls := [], minted := none }
  else
    let r : InspectionRecord :=
      ⟨body.vehicleNumber.getD "", body.inspectionDate.getD "", body.inspectorId.getD "",
       body.mileage.getD "", body.status.getD "", body.pdfurl.getD ""⟩
    let tx := mintPipeline walletAddress r utxos
    { httpStatus := 200, error := none,
      calls := [NetCall.getUtxos, NetCall.getUsedAddresses, NetCall.signTx, NetCall.submitTx],
      minted := some tx }

/-- A response of the Blockfrost indexer as node-fetch reports it. -/
structure UpstreamResponse where
  statusCode : Nat
  body : String
deriving DecidableEq

/-- node-fetch `response.ok`: the status is in [200, 300). -/
def UpstreamResponse.ok (u : UpstreamResponse) : Bool :=
  200 ≤ u.statusCode && u.statusCode < 300

/-- The observable outcome of one GET query request. -/
structure QueryOutcome where
  httpStatus : Nat
  error : Option String
  details : Option String
  payload : Option String
deriving DecidableEq

/-- The `GET /api/metadata/:txHash` handler (src/server.ts lines 419-443):
a non-ok upstream response is turned into a thrown error that the catch
block maps to a generic 500. -/
def getMetadataHandler (txHash : String) (upstream : UpstreamResponse) : QueryOutcome :=
  if txHash == "" then
    { httpStatus := 400, error := some "Transaction hash is required",
      details := none, payload := none }
  else if upstream.ok then
    { httpStatus := 200, error := none, details := none, payload := some upstream.body }
  else
    { httpStatus := 500, error := some "Failed to retrieve transaction metadata",
      details := some ("Blockfrost API returned status " ++ toString upstream.statusCode),
      payload := none }

/-- The combined object the `/api/nft/:assetId` handler returns. -/
structure NftCombined where
  assetData : String
  metadata : String
deriving DecidableEq

/-- The observable outcome of one `GET /api/nft/:assetId` request. -/
structure NftOutcome where
  httpStatus : Nat
  error : Option String
  details : Option String
  combined : Option NftCombined
deriving DecidableEq

/-- The URL both fetches of the `/api/nft/:assetId` handler use. -/
def assetUrl (assetId : String) : String :=
  "https://cardano-preview.blockfrost.io/api/v0/assets/" ++ assetId

/-- The `GET /api/nft/:assetId` handler (src/server.ts lines 446-488):
two fetches of the same `/assets/{assetId}` endpoint, merged into
`{...assetData, metadata: metadataData}`; a non-ok upstream response is
mapped to a generic 500 by the catch block. -/
def getNftHandler (assetId : String) (doFetch : String → UpstreamResponse) : NftOutcome :=
  if assetId == "" then
    { httpStatus := 400, error := some "Asset ID is required", details := none, combined := none }
  else
    let assetResponse := doFetch (assetUrl assetId)
    if !assetResponse.ok then
      { httpStatus := 500, error := some "Failed to retrieve NFT data",
        details := some ("Blockfrost API returned status " ++ toString assetResponse.statusCode),
        combined := none }
    else
      let metadataResponse := doFetch (assetUrl assetId)
      if !metadataResponse.ok then
        { httpStatus := 500, error := some "Failed to retrieve NFT data",
          details := some ("Blockfrost API returned status " ++ toString metadataResponse.statusCode),
          combined := none }
      else
        { httpStatus := 200, error := none, details := none,
          combined := some ⟨assetResponse.body, metadataResponse.body⟩ }

/-! ## Helper lemmas -/

/-- Splitting a character list at a separator absent from the prefixes is
unambiguous. -/
theorem sep_split_unique : ∀ (a a' b b' : List Char), '-' ∉ a → '-' ∉ a' →
    a ++ '-' :: b = a' ++ '-' :: b' → a = a' ∧ b = b'
  | [], [], _, _, _, _, h => by
      simp only [List.nil_append] at h
      injection h with _ h2
      exact ⟨rfl, h2⟩
  | [], y :: ys, _, _, _, ha', h => by
      simp only [List.nil_append, List.cons_append] at h
      injection h with h1 _
      exact absurd (h1 ▸ List.mem_cons_self y ys) ha'
  | x :: xs, [], _, _, ha, _, h => by
      simp only [List.nil_append, List.cons_append] at h
      injection h with h1 _
      exact absurd (h1 ▸ List.mem_cons_self x xs) ha
  | x :: xs, y :: ys, b, b', ha, ha', h => by
      simp only [List.cons_append] at h
      injection h with h1 h2
      have hxs : '-' ∉ xs := fun m => ha (List.mem_cons_of_mem _ m)
      have hys : '-' ∉ ys := fun m => ha' (List.mem_cons_of_mem _ m)
      obtain ⟨e1, e2⟩ := sep_split_unique xs ys b b' hxs hys h2
      exact ⟨by rw [h1, e1], e2⟩

/-- The character list underlying the hash input of the second handler
variant. -/
theorem dataToHash_data (r : InspectionRecord) :
    (dataToHash r).data =
      r.vehicleNumber.data ++ '-' :: (r.inspectionDate.data ++ '-' :: r.inspectorId.data) := by
  simp [dataToHash, String.data_append]

/-- When vehicleNumber and inspectorId are hyphen-free, the hash input
determines all three identity fields. -/
theorem dataToHash_inj (r₁ r₂ : InspectionRecord)
    (hv₁ : '-' ∉ r₁.vehicleNumber.data) (hv₂ : '-' ∉ r₂.vehicleNumber.data)
    (hi₁ : '-' ∉ r₁.inspectorId.data) (hi₂ : '-' ∉ r₂.inspectorId.data)
    (h : dataToHash r₁ = dataToHash r₂) :
    r₁.vehicleNumber = r₂.vehicleNumber ∧ r₁.inspectionDate = r₂.inspectionDate ∧
      r₁.inspectorId = r₂.inspectorId := by
  have hdata := congrArg String.data h
  rw [dataToHash_data, dataToHash_data] at hdata
  obtain ⟨ev, erest⟩ := sep_split_unique _ _ _ _ hv₁ hv₂ hdata
  have hrev := congrArg List.reverse erest
  simp only [List.reverse_append, List.reverse_cons, List.append_assoc,
    List.singleton_append, List.nil_append] at hrev
  have hi₁' : '-' ∉ r₁.inspectorId.data.reverse := fun m => hi₁ (List.mem_reverse.mp m)
  have hi₂' : '-' ∉ r₂.inspectorId.data.reverse := fun m => hi₂ (List.mem_reverse.mp m)
  obtain ⟨ei, ed⟩ := sep_split_unique _ _ _ _ hi₁' hi₂' hrev
  refine ⟨String.ext ev, String.ext ?_, String.ext ?_⟩
  · exact List.reverse_injective ed
  · exact List.reverse_injective ei

/-! ## Claim theorems -/

/-- C1 counterexample: the first `/api/metadata` handler variant and
src/minting.ts derive the token name as the constant
"PT. Inspeksi Mobil Jogja", which is not the first 32 hex characters of the
SHA-256 digest of vehicleNumber-inspectionDate-inspectorId for the demo
record. -/
theorem fixed_tokenName_is_not_truncated_digest :
    (mintPipelineV1 "addr_test1demo" demoAssetMetadata []).tokenName ≠
      strTake (sha256HexDigest
        (demoAssetMetadata.vehicleNumber ++ "-" ++ demoAssetMetadata.inspectionDate ++ "-" ++
          demoAssetMetadata.inspectorId)) 32 := by
  decide

/-- C1 (amended): in the hashing (second) `/api/metadata` handler variant,
every mint request record derives its tokenName as the first 32 hex
characters of the lowercase hex SHA-256 digest of
vehicleNumber + "-" + inspectionDate + "-" + inspectorId; for the fixed
demo inputs the value is b07f828500073ad7ef68c86114cf878a, the first 32 hex
characters of SHA-256("AB1234CD-2025-03-19T10:30:00Z-12345"). -/
theorem tokenName_is_truncated_sha256 :
    (∀ walletAddress r utxos,
        (mintPipeline walletAddress r utxos).tokenName =
          strTake (sha256HexDigest
            (r.vehicleNumber ++ "-" ++ r.inspectionDate ++ "-" ++ r.inspectorId)) 32) ∧
      mkTokenName demoAssetMetadata = "b07f828500073ad7ef68c86114cf878a" ∧
      strTake (sha256HexDigest "AB1234CD-2025-03-19T10:30:00Z-12345") 32 =
        "b07f828500073ad7ef68c86114cf878a" :=
  ⟨fun _ _ _ => rfl, by decide, by decide⟩

/-- C2: in the handler that returns an assetId (the second `/api/metadata`
variant), the assetId is the policyId concatenated with the hexadecimal
encoding of the UTF-8 bytes of the tokenName (hex-of-hex); at the demo
record the 32-hex-char token name re-encodes to the 64-hex-char value
below. -/
theorem assetId_is_policyId_append_tokenNameHex :
    (∀ walletAddress r utxos,
        (mintPipeline walletAddress r utxos).assetId =
          (mintPipeline walletAddress r utxos).policyId ++
            bytesToHex (utf8Bytes (mintPipeline walletAddress r utxos).tokenName)) ∧
      stringToHex (mkTokenName demoAssetMetadata) =
        "6230376638323835303030373361643765663638633836313134636638373861" :=
  ⟨fun _ _ _ => rfl, by decide⟩

/-- C3 counterexample: two records that differ in vehicleNumber (and in
inspectionDate) but whose identity fields concatenate, hyphens included, to
the same string "A-B-C-D", receive the same derived tokenName in the hashing
handler variant. -/
theorem distinct_records_same_tokenName :
    (⟨"A", "B-C", "D", "10000", "PASSED", "u"⟩ : InspectionRecord).vehicleNumber ≠
        (⟨"A-B", "C", "D", "10000", "PASSED", "u"⟩ : InspectionRecord).vehicleNumber ∧
      mkTokenName ⟨"A", "B-C", "D", "10000", "PASSED", "u"⟩ =
        mkTokenName ⟨"A-B", "C", "D", "10000", "PASSED", "u"⟩ := by
  constructor
  · decide
  · decide

/-- C3 (amended): for every pair of inspection records whose vehicleNumber
and inspectorId contain no hyphen character, differing in at least one of
the three identity fields makes the derived SHA-256 input strings
vehicleNumber + "-" + inspectionDate + "-" + inspectorId differ, so equal
tokenNames then require a collision of the truncated SHA-256 digest on
distinct inputs. -/
theorem distinct_fields_distinct_hash_input (r₁ r₂ : InspectionRecord)
    (hv₁ : '-' ∉ r₁.vehicleNumber.data) (hv₂ : '-' ∉ r₂.vehicleNumber.data)
    (hi₁ : '-' ∉ r₁.inspectorId.data) (hi₂ : '-' ∉ r₂.inspectorId.data)
    (hne : r₁.vehicleNumber ≠ r₂.vehicleNumber ∨ r₁.inspectionDate ≠ r₂.inspectionDate ∨
      r₁.inspectorId ≠ r₂.inspectorId) :
    dataToHash r₁ ≠ dataToHash r₂ := by
  intro h
  obtain ⟨ev, ed, ei⟩ := dataToHash_inj r₁ r₂ hv₁ hv₂ hi₁ hi₂ h
  rcases hne with hne | hne | hne
  · exact hne ev
  · exact hne ed
  · exact hne ei

/-- C3 witness: the demo record and its variant with inspectorId "54321"
satisfy the hyphen-freeness hypotheses and get distinct hash inputs. -/
theorem distinct_fields_distinct_hash_input_witness :
    ('-' ∉ demoAssetMetadata.vehicleNumber.data ∧
        '-' ∉ demoAssetMetadata.inspectorId.data ∧
        demoAssetMetadata.inspectorId ≠
          (⟨"AB1234CD", "2025-03-19T10:30:00Z", "54321", "10000", "PASSED", "u"⟩ :
            InspectionRecord).inspectorId) ∧
      dataToHash demoAssetMetadata ≠
        dataToHash ⟨"AB1234CD", "2025-03-19T10:30:00Z", "54321", "10000", "PASSED", "u"⟩ :=
  ⟨⟨by decide, by decide, by decide⟩,
    distinct_fields_distinct_hash_input demoAssetMetadata
      ⟨"AB1234CD", "2025-03-19T10:30:00Z", "54321", "10000", "PASSED", "u"⟩
      (by decide) (by decide) (by decide) (by decide)
      (Or.inr (Or.inr (by decide)))⟩

/-- C4: policy resolution is idempotent and a pure function of the signing
identity: resolving twice from the same wallet address yields the same
policyId, and in both handler variants the pipeline's policyId does not
depend on the inspection record or the UTxO set. -/
theorem policyId_pure_function_of_address :
    (∀ addr : String,
        resolveScriptHash (ForgeScript.withOneSignature addr) =
          resolveScriptHash (ForgeScript.withOneSignature addr)) ∧
      (∀ (addr : String) (r₁ r₂ : InspectionRecord) (u₁ u₂ : List String),
        (mintPipeline addr r₁ u₁).policyId = (mintPipeline addr r₂ u₂).policyId) ∧
      (∀ (addr : String) (r₁ r₂ : InspectionRecord) (u₁ u₂ : List String),
        (mintPipelineV1 addr r₁ u₁).policyId = (mintPipelineV1 addr r₂ u₂).policyId) :=
  ⟨fun _ => rfl, fun _ _ _ _ _ => rfl, fun _ _ _ _ _ => rfl⟩

/-- C5: in both `/api/metadata` handler variants (and the identical chain of
src/minting.ts), the unsigned transaction is assembled by exactly these
builder steps in order: mint of quantity "1" for (policyId, tokenNameHex),
attachment of the one-signature minting script, attachment of the metadata
envelope under label 721, the wallet address as change recipient, and input
selection from the supplied utxos. -/
theorem unsignedTx_built_in_exact_order :
    ∀ (addr : String) (r : InspectionRecord) (utxos : List String),
      (mintPipeline addr r utxos).steps =
        [TxStep.mint "1" (mintPipeline addr r utxos).policyId
            (mintPipeline addr r utxos).tokenNameHex,
          TxStep.mintingScript (ForgeScript.withOneSignature addr),
          TxStep.metadataValue 721 (mintPipeline addr r utxos).envelope,
          TxStep.changeAddress addr,
          TxStep.selectUtxosFrom utxos] ∧
      (mintPipelineV1 addr r utxos).steps =
        [TxStep.mint "1" (mintPipelineV1 addr r utxos).policyId
            (mintPipelineV1 addr r utxos).tokenNameHex,
          TxStep.mintingScript (ForgeScript.withOneSignature addr),
          TxStep.metadataValue 721 (mintPipelineV1 addr r utxos).envelope,
          TxStep.changeAddress addr,
          TxStep.selectUtxosFrom utxos] :=
  fun _ _ _ => ⟨rfl, rfl⟩

/-- C6 counterexample: in the first `/api/metadata` handler variant the
metadata leaf carries the spread record fields but no display name at all,
so the envelope is not "record fields plus a display name equal to
CarInspection-vehicleNumber". -/
theorem first_variant_envelope_has_no_display_name :
    (mintPipelineV1 "addr_test1demo" demoAssetMetadata []).envelope.fields.name ≠
      some ("CarInspection-" ++ demoAssetMetadata.vehicleNumber) := by
  decide

/-- C6 (amended): in the hashing (second) `/api/metadata` handler variant,
the metadata envelope is attached under label 721 and maps the policyId to
the derived tokenName to the record fields plus the display name
"CarInspection-" ++ vehicleNumber; the first variant and src/minting.ts
attach the record fields without a display name. -/
theorem envelope_maps_policy_token_fields_name :
    ∀ (addr : String) (r : InspectionRecord) (utxos : List String),
      ((mintPipeline addr r utxos).steps[2]? =
          some (TxStep.metadataValue 721 (mintPipeline addr r utxos).envelope)) ∧
      (mintPipeline addr r utxos).envelope =
        ⟨(mintPipeline addr r utxos).policyId, mkTokenName r,
          ⟨r, some ("CarInspection-" ++ r.vehicleNumber)⟩⟩ ∧
      (mintPipelineV1 addr r utxos).envelope =
        ⟨(mintPipelineV1 addr r utxos).policyId, "PT. Inspeksi Mobil Jogja", ⟨r, none⟩⟩ :=
  fun _ _ _ => ⟨rfl, rfl, rfl⟩

/-- C7: a `POST /api/metadata` body with at least one of the six fields
absent is rejected with status 400 and an error body, and the handler's
network-call trace is empty: no UTxO fetch, signing or submission is
attempted. -/
theorem missing_field_rejected_before_network (body : MintRequestBody)
    (addr : String) (utxos : List String)
    (h : body.vehicleNumber = none ∨ body.inspectionDate = none ∨ body.inspectorId = none ∨
      body.mileage = none ∨ body.status = none ∨ body.pdfurl = none) :
    (postMetadataHandler body addr utxos).httpStatus = 400 ∧
      (postMetadataHandler body addr utxos).error = some "Missing required fields" ∧
      (postMetadataHandler body addr utxos).calls = [] := by
  unfold postMetadataHandler
  rcases h with h | h | h | h | h | h <;> rw [h] <;> simp [truthy]

/-- C7 witness: a body missing mileage is rejected with 400 and an empty
call trace. -/
theorem missing_field_rejected_before_network_witness :
    (MintRequestBody.mileage
        ⟨some "AB1234CD", some "2025-03-19T10:30:00Z", some "12345", none,
          some "PASSED", some "https://bitcoin.org/bitcoin.pdf"⟩ = none) ∧
      ((postMetadataHandler
          ⟨some "AB1234CD", some "2025-03-19T10:30:00Z", some "12345", none,
            some "PASSED", some "https://bitcoin.org/bitcoin.pdf"⟩
          "addr_test1demo" []).httpStatus = 400 ∧
        (postMetadataHandler
          ⟨some "AB1234CD", some "2025-03-19T10:30:00Z", some "12345", none,
            some "PASSED", some "https://bitcoin.org/bitcoin.pdf"⟩
          "addr_test1demo" []).error = some "Missing required fields" ∧
        (postMetadataHandler
          ⟨some "AB1234CD", some "2025-03-19T10:30:00Z", some "12345", none,
            some "PASSED", some "https://bitcoin.org/bitcoin.pdf"⟩
          "addr_test1demo" []).calls = []) :=
  ⟨rfl, missing_field_rejected_before_network
    ⟨some "AB1234CD", some "2025-03-19T10:30:00Z", some "12345", none,
      some "PASSED", some "https://bitcoin.org/bitcoin.pdf"⟩
    "addr_test1demo" [] (Or.inr (Or.inr (Or.inr (Or.inl rfl))))⟩

/-- C9: a `POST /api/metadata` body in which every field is present but at
least one field is the empty string is rejected exactly like an absent
field: status 400, error "Missing required fields", and no network call,
because the presence check uses JavaScript truthiness and "" is falsy. -/
theorem empty_string_field_rejected (body : MintRequestBody)
    (addr : String) (utxos : List String)
    (_hall : body.vehicleNumber ≠ none ∧ body.inspectionDate ≠ none ∧ body.inspectorId ≠ none ∧
      body.mileage ≠ none ∧ body.status ≠ none ∧ body.pdfurl ≠ none)
    (h : body.vehicleNumber = some "" ∨ body.inspectionDate = some "" ∨
      body.inspectorId = some "" ∨ body.mileage = some "" ∨ body.status = some "" ∨
      body.pdfurl = some "") :
    (postMetadataHandler body addr utxos).httpStatus = 400 ∧
      (postMetadataHandler body addr utxos).error = some "Missing required fields" ∧
      (postMetadataHandler body addr utxos).calls = [] := by
  unfold postMetadataHandler
  rcases h with h | h | h | h | h | h <;> rw [h] <;> simp [truthy]

/-- C9 witness: a body whose mileage is the empty string is rejected with
400 and an empty call trace. -/
theorem empty_string_field_rejected_witness :
    (MintRequestBody.mileage
        ⟨some "AB1234CD", some "2025-03-19T10:30:00Z", some "12345", some "",
          some "PASSED", some "https://bitcoin.org/bitcoin.pdf"⟩ = some "") ∧
      ((postMetadataHandler
          ⟨some "AB1234CD", some "2025-03-19T10:30:00Z", some "12345", some "",
            some "PASSED", some "https://bitcoin.org/bitcoin.pdf"⟩
          "addr_test1demo" []).httpStatus = 400 ∧
        (postMetadataHandler
          ⟨some "AB1234CD", some "2025-03-19T10:30:00Z", some "12345", some "",
            some "PASSED", some "https://bitcoin.org/bitcoin.pdf"⟩
          "addr_test1demo" []).error = some "Missing required fields" ∧
        (postMetadataHandler
          ⟨some "AB1234CD", some "2025-03-19T10:30:00Z", some "12345", some "",
            some "PASSED", some "https://bitcoin.org/bitcoin.pdf"⟩
          "addr_test1demo" []).calls = []) :=
  ⟨rfl, empty_string_field_rejected
    ⟨some "AB1234CD", some "2025-03-19T10:30:00Z", some "12345", some "",
      some "PASSED", some "https://bitcoin.org/bitcoin.pdf"⟩
    "addr_test1demo" []
    ⟨by decide, by decide, by decide, by decide, by decide, by decide⟩
    (Or.inr (Or.inr (Or.inr (Or.inl rfl))))⟩

/-- C8 counterexample: a 404 from the indexer for an unknown transaction
hash or asset id is answered with status 500, not with the upstream 404:
the catch block swallows the status into a generic message. -/
theorem upstream_status_not_preserved :
    (getMetadataHandler "deadbeef" ⟨404, "Not Found"⟩).httpStatus = 500 ∧
      (getMetadataHandler "deadbeef" ⟨404, "Not Found"⟩).httpStatus ≠ 404 ∧
      (getNftHandler "asset1demo" (fun _ => ⟨404, "Not Found"⟩)).httpStatus = 500 ∧
      (getNftHandler "asset1demo" (fun _ => ⟨404, "Not Found"⟩)).httpStatus ≠ 404 := by
  refine ⟨rfl, by decide, rfl, by decide⟩

/-- C8 (amended): for both GET endpoints, a non-2xx upstream response is
answered with status 500 and a generic error message; the upstream status
survives only inside the details string
"Blockfrost API returned status N". -/
theorem upstream_error_mapped_to_500 (txHash assetId : String)
    (u : UpstreamResponse) (f : String → UpstreamResponse)
    (ht : txHash ≠ "") (ha : assetId ≠ "")
    (hu : u.ok = false) (hf : (f (assetUrl assetId)).ok = false) :
    (getMetadataHandler txHash u).httpStatus = 500 ∧
      (getMetadataHandler txHash u).error = some "Failed to retrieve transaction metadata" ∧
      (getMetadataHandler txHash u).details =
        some ("Blockfrost API returned status " ++ toString u.statusCode) ∧
      (getNftHandler assetId f).httpStatus = 500 ∧
      (getNftHandler assetId f).error = some "Failed to retrieve NFT data" ∧
      (getNftHandler assetId f).details =
        some ("Blockfrost API returned status " ++ toString (f (assetUrl assetId)).statusCode) := by
  simp [getMetadataHandler, getNftHandler, ht, ha, hu, hf]

/-- C8 witness: at a concrete 404 response both handlers answer 500 with
the upstream status preserved only in the details string. -/
theorem upstream_error_mapped_to_500_witness :
    (("deadbeef" : String) ≠ "" ∧ ("asset1demo" : String) ≠ "" ∧
        UpstreamResponse.ok ⟨404, "Not Found"⟩ = false) ∧
      ((getMetadataHandler "deadbeef" ⟨404, "Not Found"⟩).httpStatus = 500 ∧
        (getMetadataHandler "deadbeef" ⟨404, "Not Found"⟩).error =
          some "Failed to retrieve transaction metadata" ∧
        (getMetadataHandler "deadbeef" ⟨404, "Not Found"⟩).details =
          some ("Blockfrost API returned status " ++ toString (404 : Nat)) ∧
        (getNftHandler "asset1demo" (fun _ => ⟨404, "Not Found"⟩)).httpStatus = 500 ∧
        (getNftHandler "asset1demo" (fun _ => ⟨404, "Not Found"⟩)).error =
          some "Failed to retrieve NFT data" ∧
        (getNftHandler "asset1demo" (fun _ => ⟨404, "Not Found"⟩)).details =
          some ("Blockfrost API returned status " ++
            toString ((fun _ => (⟨404, "Not Found"⟩ : UpstreamResponse)) (assetUrl "asset1demo")).statusCode)) :=
  ⟨⟨by decide, by decide, by decide⟩,
    upstream_error_mapped_to_500 "deadbeef" "asset1demo" ⟨404, "Not Found"⟩
      (fun _ => ⟨404, "Not Found"⟩) (by decide) (by decide) (by decide) (by decide)⟩

/-- C10: whenever `GET /api/nft/:assetId` succeeds, the combined object's
metadata field is byte-for-byte the asset payload it is merged with: both
fetches in the handler target the identical `/assets/{assetId}` URL of the
same upstream. -/
theorem nft_combined_metadata_equals_asset_data (assetId : String)
    (doFetch : String → UpstreamResponse) (c : NftCombined)
    (h : (getNftHandler assetId doFetch).combined = some c) :
    c.metadata = c.assetData := by
  by_cases h0 : assetId = ""
  · subst h0
    simp [getNftHandler] at h
  · cases hok : (doFetch (assetUrl assetId)).ok with
    | false => simp [getNftHandler, h0, hok] at h
    | true =>
      simp [getNftHandler, h0, hok] at h
      subst h
      rfl

/-- C10 witness: with a constant upstream the success response combines the
same payload with itself. -/
theorem nft_combined_metadata_equals_asset_data_witness :
    ((getNftHandler "asset1demo" (fun _ => ⟨200, "payload"⟩)).combined =
        some ⟨"payload", "payload"⟩) ∧
      (NftCombined.metadata ⟨"payload", "payload"⟩ =
        NftCombined.assetData ⟨"payload", "payload"⟩) :=
  ⟨by decide, nft_combined_metadata_equals_asset_data "asset1demo"
    (fun _ => ⟨200, "payload"⟩) ⟨"payload", "payload"⟩ (by decide)⟩
